import Mathlib

/-!
Shallow embedding of qutebrowser's network interception layer:
`qutebrowser/browser/cookies.py` (class `CookieJar`) and
`qutebrowser/network/networkmanager.py` (class `NetworkManager`),
together with theorems settling the specification claims about them.

Conventions of the embedding:
* Qt timestamps (`QDateTime`) are modelled as `Int`; a `QNetworkCookie`
  with no expiration date (`isSessionCookie`) carries `none`.
* External collaborators that the source merely calls
  (`QNetworkCookieJar.setCookiesFromUrl`, `QNetworkCookie.parseCookies`,
  scheme handlers) are passed in as function parameters, so the theorems
  hold for every possible behaviour of the collaborator.
* Effects on the outside world (messages shown to the user, calls into the
  transport, `abort()` calls) are recorded in explicit logs so that the
  theorems can speak about them.
-/

namespace QuteNet

/-- A cookie as stored by `QNetworkCookie`.  `expiry = none` models an
invalid (unset) `expirationDate()`, which is exactly Qt's session-cookie
condition. -/
structure QNetworkCookie where
  name : String
  value : String
  domain : String
  path : String
  expiry : Option Int
  secure : Bool
deriving DecidableEq, Repr

/-- `QNetworkCookie.isSessionCookie`: true iff no expiration date is set. -/
def QNetworkCookie.isSessionCookie (c : QNetworkCookie) : Bool :=
  c.expiry.isNone

/-- `QNetworkCookie.expirationDate`; for a session cookie Qt returns an
invalid `QDateTime`, modelled by the default `0` (the source only compares
the expiration date after ruling out session cookies). -/
def QNetworkCookie.expirationDate (c : QNetworkCookie) : Int :=
  c.expiry.getD 0

/-- `QNetworkCookie.toRawForm`, the one-line wire serialization used for the
persisted cookie file (`name=value; Domain=...; Path=...; Expires=...`). -/
def QNetworkCookie.toRawForm (c : QNetworkCookie) : String :=
  c.name ++ "=" ++ c.value ++ "; Domain=" ++ c.domain ++ "; Path=" ++ c.path ++
    (match c.expiry with
     | none => ""
     | some e => "; Expires=" ++ toString e)

/-- The configuration values consumed by the excerpt
(`config.get(section, option)` calls).  `cookiesAccept` is the raw string
the source compares against `'never'`; `acceptLanguage = none` models the
`None` the source tests with `is not None`. -/
structure Config where
  cookiesAccept : String
  cookiesStore : Bool
  sslStrict : Bool
  doNotTrack : Bool
  acceptLanguage : Option String
deriving DecidableEq, Repr

/-- State of a `CookieJar`: the in-memory cookie list (`allCookies()` /
`setAllCookies`) and the lines of the backing file (`self._linecp.data`,
written out by `self._linecp.save()`). -/
structure CookieJar where
  cookies : List QNetworkCookie
  fileData : List String
deriving DecidableEq, Repr

/-- `QNetworkCookieJar.allCookies()`. -/
def CookieJar.allCookies (jar : CookieJar) : List QNetworkCookie :=
  jar.cookies

/-- `QNetworkCookieJar.setAllCookies(cookies)`. -/
def CookieJar.setAllCookies (jar : CookieJar) (cs : List QNetworkCookie) :
    CookieJar :=
  { jar with cookies := cs }

/-- `CookieJar.__init__`: reads every line of the persisted file, appends
the cookies `QNetworkCookie.parseCookies` extracts from each line (a line
may contain several cookies, or none on parse failure), and installs the
result with `setAllCookies`.  The Qt parser is the explicit argument
`parseCookies`. -/
def CookieJar.init (parseCookies : String → List QNetworkCookie)
    (fileLines : List String) : CookieJar :=
  { cookies := fileLines.foldl (fun acc line => acc ++ parseCookies line) []
    fileData := fileLines }

/-- `CookieJar.purge_old_cookies`: keeps exactly the cookies `c` with
`c.isSessionCookie() or c.expirationDate() >= now`. -/
def CookieJar.purge_old_cookies (now : Int) (jar : CookieJar) : CookieJar :=
  jar.setAllCookies
    (jar.allCookies.filter
      (fun c => c.isSessionCookie || decide (now ≤ c.expirationDate)))

/-- `CookieJar.setCookiesFromUrl`: returns `False` without touching anything
when the `permissions -> cookies-accept` setting is the string `'never'`;
otherwise defers to the Qt base-class implementation, modelled by the
explicit argument `superImpl`. -/
def CookieJar.setCookiesFromUrl
    (superImpl : List QNetworkCookie → String → CookieJar → Bool × CookieJar)
    (cfg : Config) (cookies : List QNetworkCookie) (url : String)
    (jar : CookieJar) : Bool × CookieJar :=
  if cfg.cookiesAccept = "never" then
    (false, jar)
  else
    superImpl cookies url jar

/-- `CookieJar.save`: a no-op when `permissions -> cookies-store` is false;
otherwise purges old cookies, serializes every non-session cookie to one
line and overwrites the backing file with exactly those lines. -/
def CookieJar.save (cfg : Config) (now : Int) (jar : CookieJar) : CookieJar :=
  if !cfg.cookiesStore then
    jar
  else
    let jar' := jar.purge_old_cookies now
    let lines :=
      (jar'.allCookies.filter (fun c => !c.isSessionCookie)).map
        QNetworkCookie.toRawForm
    { jar' with fileData := lines }

/-- A raw header list as carried by a `QNetworkRequest`; `setRawHeader`
overwrites any previously-set value for the same header name. -/
def setRawHeader (name value : String) (hs : List (String × String)) :
    List (String × String) :=
  hs.filter (fun p => p.1 ≠ name) ++ [(name, value)]

/-- Raw-header lookup on a request's header list (first match wins). -/
def getRawHeader (name : String) : List (String × String) → Option String
  | [] => none
  | p :: rest => if p.1 = name then some p.2 else getRawHeader name rest

/-- A `QNetworkRequest`: its URL (split into the scheme that
`req.url().scheme()` returns, and the rest) and its raw headers. -/
structure QNetworkRequest where
  scheme : String
  target : String
  headers : List (String × String)
deriving DecidableEq, Repr

/-- The `QNetworkReply` error codes mentioned by the excerpt. -/
inductive NetworkError where
  | ProtocolUnknownError
  | OperationCanceledError
deriving DecidableEq, Repr

/-- A `QNetworkReply` as produced by `createRequest`: an
`ErrorNetworkReply` carrying the request, a message and an error code; a
synthetic reply with in-process content (what a scheme handler builds); or
a reply handed back by the underlying transport, identified by the handle
used for tracking. -/
inductive Reply where
  | error (req : QNetworkRequest) (msg : String) (errCode : NetworkError)
  | content (req : QNetworkRequest) (data : String)
  | transport (id : Nat)
deriving DecidableEq, Repr

/-- A scheme handler: `handler.createRequest(op, req, outgoing_data)`. -/
def SchemeHandler : Type :=
  Nat → QNetworkRequest → Option String → Reply

/-- One recorded call into the underlying transport
(`super().createRequest(op, req, outgoing_data)`).  The `req` field holds
the request as it crosses into the transport, after any header mutation. -/
structure TransportCall where
  op : Nat
  req : QNetworkRequest
  outgoingData : Option String
deriving DecidableEq, Repr

/-- Calls made on the `message` module (the user-interaction service).
The source distinguishes `message.error` from `message.warn` — its own
FIXME comment in `on_ssl_errors` records that `warn` is not what it calls. -/
inductive MsgCall where
  | warn (text : String)
  | error (text : String)
  | ask (prompt : String)
deriving DecidableEq, Repr

/-- Number of `warn` calls in a message log. -/
def countWarns : List MsgCall → Nat
  | [] => 0
  | MsgCall.warn _ :: rest => countWarns rest + 1
  | _ :: rest => countWarns rest

/-- Number of `error` calls in a message log. -/
def countErrors : List MsgCall → Nat
  | [] => 0
  | MsgCall.error _ :: rest => countErrors rest + 1
  | _ :: rest => countErrors rest

/-- An `QSslError` as far as the excerpt looks at it: its `errorString()`. -/
structure SslError where
  errorString : String
deriving DecidableEq, Repr

/-- State of a `NetworkManager`:
* `requests` — the `self._requests` list of tracked reply handles;
* `nextId` — fresh-handle counter for replies the transport returns;
* `accessible` — the `QNetworkAccessManager` accessibility flag, cleared by
  `setNetworkAccessible(NotAccessible)`;
* `abortLog` — handles on which `request.abort()` was called;
* `deleteLaterLog` — handles on which `request.deleteLater()` was called
  (actual destruction, and hence removal from `requests` via the
  `destroyed` signal, only happens when the event loop later runs);
* `transportLog` — every call forwarded to `super().createRequest`. -/
structure NMState where
  requests : List Nat
  nextId : Nat
  accessible : Bool
  abortLog : List Nat
  deleteLaterLog : List Nat
  transportLog : List TransportCall
deriving DecidableEq, Repr

/-- The manager state right after `__init__`. -/
def NMState.initial : NMState :=
  { requests := []
    nextId := 0
    accessible := true
    abortLog := []
    deleteLaterLog := []
    transportLog := [] }

/-- `NetworkManager.shutdown`: flags the manager `NotAccessible`, then
calls `abort()` and `deleteLater()` on every tracked request.  It does not
itself remove anything from `self._requests`: removal happens only when a
reply's deferred destruction fires the `destroyed` signal. -/
def shutdown (st : NMState) : NMState :=
  { st with
    accessible := false
    abortLog := st.abortLog ++ st.requests
    deleteLaterLog := st.deleteLaterLog ++ st.requests }

/-- `list.remove(x)` on Python lists: drops the first occurrence, or fails
with `ValueError` (`none`) when `x` is absent. -/
def listRemove (x : Nat) : List Nat → Option (List Nat)
  | [] => none
  | y :: ys =>
      if y = x then some ys
      else (listRemove x ys).map (fun l => y :: l)

/-- The `destroyed`-signal callback `lambda obj: self._requests.remove(obj)`
registered on each tracked reply — the tracker's untrack operation.
`none` models the `ValueError` that `list.remove` raises when the handle is
not in the list. -/
def untrack (h : Nat) (st : NMState) : Option NMState :=
  (listRemove h st.requests).map (fun l => { st with requests := l })

/-- `NetworkManager.on_ssl_errors`: with `network -> ssl-strict` enabled it
returns at once; otherwise it reports each error through `message.error`
(the source's FIXME notes `warn` as a possible alternative it does not use)
and then calls `reply.ignoreSslErrors()`.  The result is the list of
message-service calls made and whether `ignoreSslErrors` was invoked. -/
def on_ssl_errors (cfg : Config) (errors : List SslError) :
    List MsgCall × Bool :=
  if cfg.sslStrict then
    ([], false)
  else
    (errors.map (fun e => MsgCall.error ("SSL error: " ++ e.errorString)),
     true)

/-- The header-policy block of `createRequest` (source lines 137–146):
sets `DNT` and `X-Do-Not-Track` to `'1'` or `'0'` from the
`network -> do-not-track` flag, then sets `Accept-Language` exactly when
the `network -> accept-language` value is not `None`. -/
def applyHeaderPolicy (cfg : Config) (headers : List (String × String)) :
    List (String × String) :=
  let dnt := if cfg.doNotTrack then "1" else "0"
  let headers1 := setRawHeader "DNT" dnt headers
  let headers2 := setRawHeader "X-Do-Not-Track" dnt headers1
  match cfg.acceptLanguage with
  | some al => setRawHeader "Accept-Language" al headers2
  | none => headers2

/-- `NetworkManager.createRequest`.  Arguments mirror the source: the
module-level `SSL_AVAILABLE` flag, the `self._scheme_handlers` dict (an
association list keyed by scheme), the configuration, then
`(op, req, outgoing_data)`.  Returns the reply and the updated state.
The `PYQT_VERSION < 0x050301` branch differs only in temporarily disabling
a Qt message handler around the `super().createRequest` call, so both
branches are the same transport call here. -/
def createRequest (sslAvailable : Bool)
    (schemeHandlers : List (String × SchemeHandler)) (cfg : Config)
    (op : Nat) (req : QNetworkRequest) (outgoingData : Option String)
    (st : NMState) : Reply × NMState :=
  if req.scheme = "https" ∧ ¬sslAvailable then
    (Reply.error req "SSL is not supported by the installed Qt library!"
      NetworkError.ProtocolUnknownError, st)
  else
    match schemeHandlers.lookup req.scheme with
    | some handler => (handler op req outgoingData, st)
    | none =>
        let req' := { req with headers := applyHeaderPolicy cfg req.headers }
        let id := st.nextId
        let st' :=
          { st with
            nextId := id + 1
            transportLog :=
              st.transportLog ++
                [{ op := op, req := req', outgoingData := outgoingData }]
            requests := st.requests ++ [id] }
        (Reply.transport id, st')

/-! ### Concrete fixtures used by witnesses and counterexamples -/

/-- A session cookie (no expiry) for `example.com`. -/
def exCookieSession : QNetworkCookie :=
  { name := "session", value := "true", domain := "example.com",
    path := "/", expiry := none, secure := false }

/-- A persistent cookie expiring at time 100. -/
def exCookiePersist : QNetworkCookie :=
  { name := "id", value := "42", domain := "example.com",
    path := "/", expiry := some 100, secure := false }

/-- A persistent cookie that expired at time 10. -/
def exCookieExpired : QNetworkCookie :=
  { name := "old", value := "x", domain := "example.com",
    path := "/", expiry := some 10, secure := false }

/-- A jar holding the three fixture cookies and an empty backing file. -/
def exJar : CookieJar :=
  { cookies := [exCookieSession, exCookiePersist, exCookieExpired]
    fileData := [] }

/-- A jar holding only the session cookie. -/
def exSessionJar : CookieJar :=
  { cookies := [exCookieSession], fileData := [] }

/-- Configuration with accept-policy `never`. -/
def cfgNever : Config :=
  { cookiesAccept := "never", cookiesStore := true, sslStrict := false,
    doNotTrack := false, acceptLanguage := none }

/-- Configuration with accept-policy `always` and persistence enabled. -/
def cfgPersist : Config :=
  { cookiesAccept := "always", cookiesStore := true, sslStrict := false,
    doNotTrack := true, acceptLanguage := none }

/-! ### Helper lemmas -/

/-- The cookie list right after a purge is the filtered cookie list. -/
theorem purge_allCookies_eq (now : Int) (jar : CookieJar) :
    (jar.purge_old_cookies now).allCookies =
      jar.allCookies.filter
        (fun c => c.isSessionCookie || decide (now ≤ c.expirationDate)) := rfl

/-- Session cookies always survive `purge_old_cookies`. -/
theorem mem_purge_of_session (now : Int) (jar : CookieJar)
    (c : QNetworkCookie) (hc : c ∈ jar.allCookies)
    (hsess : c.isSessionCookie = true) :
    c ∈ (jar.purge_old_cookies now).allCookies := by
  rw [purge_allCookies_eq]
  exact List.mem_filter.mpr ⟨hc, by simp [hsess]⟩

/-- Folding list-append over per-line parses is `List.bind`. -/
theorem foldl_append_parse (parse : String → List QNetworkCookie) :
    ∀ (lines : List String) (acc : List QNetworkCookie),
      lines.foldl (fun acc line => acc ++ parse line) acc =
        acc ++ lines.flatMap parse := by
  intro lines
  induction lines with
  | nil => intro acc; simp
  | cons l ls ih =>
      intro acc
      simp only [List.foldl_cons, List.flatMap_cons, ih, List.append_assoc]

/-! ### Claims about the cookie jar -/

/-- C5: for every base-class implementation, cookie list (also non-empty),
URL and jar state, when `permissions -> cookies-accept` is `"never"`,
`setCookiesFromUrl` returns `False` and leaves the jar (cookies and file)
unchanged. -/
theorem C5_setCookiesFromUrl_never
    (superImpl : List QNetworkCookie → String → CookieJar → Bool × CookieJar)
    (cfg : Config) (cookies : List QNetworkCookie) (url : String)
    (jar : CookieJar) (h : cfg.cookiesAccept = "never") :
    CookieJar.setCookiesFromUrl superImpl cfg cookies url jar =
      (false, jar) := by
  simp [CookieJar.setCookiesFromUrl, h]

/-- C5 witness: a mutating base implementation and a non-empty cookie list;
the call still returns `false` and the jar is untouched. -/
theorem C5_witness :
    CookieJar.setCookiesFromUrl
      (fun cs _ j => (true, { j with cookies := j.cookies ++ cs }))
      cfgNever [exCookiePersist] "https://example.com/" exJar =
      (false, exJar) :=
  C5_setCookiesFromUrl_never
    (fun cs _ j => (true, { j with cookies := j.cookies ++ cs }))
    cfgNever [exCookiePersist] "https://example.com/" exJar rfl

/-- C7: `purge_old_cookies now` removes exactly the non-session cookies
whose expiry is strictly before `now`: no surviving non-session cookie has
expiry `< now`; every session cookie survives; every cookie with expiry
`≥ now` survives; and anything removed was non-session with expiry `< now`. -/
theorem C7_purgeExpired (now : Int) (jar : CookieJar) :
    (∀ c ∈ (jar.purge_old_cookies now).allCookies,
        c.isSessionCookie = false → now ≤ c.expirationDate) ∧
    (∀ c ∈ jar.allCookies, c.isSessionCookie = true →
        c ∈ (jar.purge_old_cookies now).allCookies) ∧
    (∀ c ∈ jar.allCookies, now ≤ c.expirationDate →
        c ∈ (jar.purge_old_cookies now).allCookies) ∧
    (∀ c ∈ jar.allCookies, c ∉ (jar.purge_old_cookies now).allCookies →
        c.isSessionCookie = false ∧ c.expirationDate < now) := by
  refine ⟨?_, ?_, ?_, ?_⟩
  · intro c hc hsess
    rw [purge_allCookies_eq] at hc
    have hp := (List.mem_filter.mp hc).2
    simp only [Bool.or_eq_true, decide_eq_true_eq] at hp
    rcases hp with h1 | h2
    · rw [hsess] at h1; exact absurd h1 (by simp)
    · exact h2
  · intro c hc hsess
    exact mem_purge_of_session now jar c hc hsess
  · intro c hc hle
    rw [purge_allCookies_eq]
    exact List.mem_filter.mpr ⟨hc, by simp [hle]⟩
  · intro c hc hnot
    rw [purge_allCookies_eq] at hnot
    by_cases hsess : c.isSessionCookie = true
    · exact absurd (List.mem_filter.mpr ⟨hc, by simp [hsess]⟩) hnot
    · refine ⟨Bool.eq_false_iff.mpr hsess, ?_⟩
      by_cases hle : now ≤ c.expirationDate
      · exact absurd (List.mem_filter.mpr ⟨hc, by simp [hle]⟩) hnot
      · omega

/-- C7 witness at concrete data: purging `exJar` at time 50 keeps the
session cookie and the cookie expiring at 100, and whatever was dropped
(the cookie expiring at 10) was non-session and already expired. -/
theorem C7_witness :
    exCookieSession ∈ (exJar.purge_old_cookies 50).allCookies ∧
    exCookiePersist ∈ (exJar.purge_old_cookies 50).allCookies ∧
    (exCookieExpired.isSessionCookie = false ∧
      exCookieExpired.expirationDate < 50) := by
  have h := C7_purgeExpired 50 exJar
  exact ⟨h.2.1 exCookieSession (by decide) (by decide),
         h.2.2.1 exCookiePersist (by decide) (by decide),
         h.2.2.2 exCookieExpired (by decide) (by decide)⟩

/-- C6: with persistence disabled, `save` changes neither the cookies nor
the file.  With persistence enabled, it first purges expired cookies and
the file then holds exactly one serialized line per surviving non-session
cookie (so a cookie with no expiry is never written — every written line
comes from a non-session cookie), while every session cookie of the jar is
still in `allCookies()` afterwards. -/
theorem C6_save_behaviour (cfg : Config) (now : Int) (jar : CookieJar) :
    (cfg.cookiesStore = false → jar.save cfg now = jar) ∧
    (cfg.cookiesStore = true →
      (jar.save cfg now).fileData =
        ((jar.purge_old_cookies now).allCookies.filter
            (fun c => !c.isSessionCookie)).map QNetworkCookie.toRawForm ∧
      (∀ line ∈ (jar.save cfg now).fileData,
          ∃ c ∈ (jar.purge_old_cookies now).allCookies,
            c.isSessionCookie = false ∧ line = c.toRawForm) ∧
      (∀ c : QNetworkCookie, c.expiry = none → c.isSessionCookie = true) ∧
      (∀ c ∈ jar.allCookies, c.isSessionCookie = true →
          c ∈ (jar.save cfg now).allCookies)) := by
  constructor
  · intro h
    simp [CookieJar.save, h]
  · intro h
    have hfile : (jar.save cfg now).fileData =
        ((jar.purge_old_cookies now).allCookies.filter
            (fun c => !c.isSessionCookie)).map QNetworkCookie.toRawForm := by
      simp [CookieJar.save, h]
    have hcookies : (jar.save cfg now).allCookies =
        (jar.purge_old_cookies now).allCookies := by
      simp [CookieJar.save, h, CookieJar.allCookies]
    refine ⟨hfile, ?_, ?_, ?_⟩
    · intro line hline
      rw [hfile] at hline
      rcases List.mem_map.mp hline with ⟨c, hc, hraw⟩
      rcases List.mem_filter.mp hc with ⟨hc', hns⟩
      exact ⟨c, hc', by simpa using hns, hraw.symm⟩
    · intro c hnone
      simp [QNetworkCookie.isSessionCookie, hnone]
    · intro c hc hsess
      rw [hcookies]
      exact mem_purge_of_session now jar c hc hsess

/-- C6 witness, the spec scenario: persistence on, one session cookie; the
written file is empty while the session cookie is still in memory. -/
theorem C6_witness :
    (exSessionJar.save cfgPersist 50).fileData = [] ∧
    exCookieSession ∈ (exSessionJar.save cfgPersist 50).allCookies := by
  have h := (C6_save_behaviour cfgPersist 50 exSessionJar).2 rfl
  exact ⟨h.1.trans (by decide),
         h.2.2.2 exCookieSession (by decide) (by decide)⟩

/-- C10: constructing the jar from the persisted file performs no expiry
purge: the store holds exactly the concatenation of what the parser
extracts from each line, and a cookie is in `allCookies()` iff some line
parses to it — with no condition on its expiry, so cookies already expired
at load time are included. -/
theorem C10_init_no_purge (parseCookies : String → List QNetworkCookie)
    (fileLines : List String) :
    (CookieJar.init parseCookies fileLines).allCookies =
      fileLines.flatMap parseCookies ∧
    (∀ c : QNetworkCookie,
        c ∈ (CookieJar.init parseCookies fileLines).allCookies ↔
          ∃ line ∈ fileLines, c ∈ parseCookies line) := by
  have heq : (CookieJar.init parseCookies fileLines).allCookies =
      fileLines.flatMap parseCookies := by
    show fileLines.foldl (fun acc line => acc ++ parseCookies line) [] = _
    rw [foldl_append_parse]
    simp
  refine ⟨heq, fun c => ?_⟩
  rw [heq]
  exact List.mem_flatMap

/-! ### Network-manager fixtures -/

/-- Configuration with `ssl-strict` enabled. -/
def cfgStrict : Config :=
  { cookiesAccept := "always", cookiesStore := false, sslStrict := true,
    doNotTrack := false, acceptLanguage := none }

/-- Configuration with `ssl-strict` disabled and no header extras. -/
def cfgLax : Config :=
  { cookiesAccept := "always", cookiesStore := false, sslStrict := false,
    doNotTrack := false, acceptLanguage := none }

/-- Configuration with do-not-track on and accept-language `en-US`. -/
def cfgDNT : Config :=
  { cookiesAccept := "always", cookiesStore := false, sslStrict := false,
    doNotTrack := true, acceptLanguage := some "en-US" }

/-- Configuration whose accept-language is the empty string (non-null). -/
def cfgEmptyAL : Config :=
  { cookiesAccept := "always", cookiesStore := false, sslStrict := false,
    doNotTrack := true, acceptLanguage := some "" }

/-- A plain `https://example.com` request with no headers yet. -/
def plainReq : QNetworkRequest :=
  { scheme := "https", target := "example.com/", headers := [] }

/-- A request for the internal `qute` scheme. -/
def quteReq : QNetworkRequest :=
  { scheme := "qute", target := "version", headers := [] }

/-- A concrete scheme handler producing an in-process reply. -/
def quteHandler : SchemeHandler :=
  fun _ req _ => Reply.content req "qute-page"

/-- A manager state with one tracked request handle `0`. -/
def exTrackedState : NMState :=
  { NMState.initial with requests := [0], nextId := 1 }

/-! ### Header lemmas -/

/-- `setRawHeader` makes the set header readable back. -/
theorem getRawHeader_setRawHeader_same (name v : String)
    (hs : List (String × String)) :
    getRawHeader name (setRawHeader name v hs) = some v := by
  induction hs with
  | nil => simp [getRawHeader, setRawHeader]
  | cons p t ih =>
      by_cases hp : p.1 = name
      · simpa [setRawHeader, List.filter_cons, hp] using ih
      · simpa [setRawHeader, getRawHeader, List.filter_cons, hp] using ih

/-- `setRawHeader` on one name leaves lookups of a different name alone. -/
theorem getRawHeader_setRawHeader_other (name name' v : String)
    (hs : List (String × String)) (h : name ≠ name') :
    getRawHeader name (setRawHeader name' v hs) = getRawHeader name hs := by
  induction hs with
  | nil => simp [getRawHeader, setRawHeader, Ne.symm h]
  | cons p t ih =>
      by_cases hp1 : p.1 = name'
      · have hp2 : ¬(p.1 = name) := fun hc => h (hc.symm.trans hp1)
        simpa [setRawHeader, getRawHeader, List.filter_cons, hp1, hp2, h,
          Ne.symm h] using ih
      · by_cases hp2 : p.1 = name
        · simp [setRawHeader, getRawHeader, List.filter_cons, hp1, hp2, h,
            Ne.symm h]
        · simpa [setRawHeader, getRawHeader, List.filter_cons, hp1, hp2, h,
            Ne.symm h] using ih

/-- The `DNT` header after the header-policy block. -/
theorem applyHeaderPolicy_dnt (cfg : Config) (hs : List (String × String)) :
    getRawHeader "DNT" (applyHeaderPolicy cfg hs) =
      some (if cfg.doNotTrack then "1" else "0") := by
  unfold applyHeaderPolicy
  cases cfg.acceptLanguage with
  | none =>
      rw [getRawHeader_setRawHeader_other _ _ _ _ (by decide),
        getRawHeader_setRawHeader_same]
  | some al =>
      rw [getRawHeader_setRawHeader_other _ _ _ _ (by decide),
        getRawHeader_setRawHeader_other _ _ _ _ (by decide),
        getRawHeader_setRawHeader_same]

/-- The `X-Do-Not-Track` header after the header-policy block. -/
theorem applyHeaderPolicy_xdnt (cfg : Config) (hs : List (String × String)) :
    getRawHeader "X-Do-Not-Track" (applyHeaderPolicy cfg hs) =
      some (if cfg.doNotTrack then "1" else "0") := by
  unfold applyHeaderPolicy
  cases cfg.acceptLanguage with
  | none => rw [getRawHeader_setRawHeader_same]
  | some al =>
      rw [getRawHeader_setRawHeader_other _ _ _ _ (by decide),
        getRawHeader_setRawHeader_same]

/-- The `Accept-Language` header after the header-policy block: set to the
configured value when that value is not `None`, untouched otherwise. -/
theorem applyHeaderPolicy_acceptLanguage (cfg : Config)
    (hs : List (String × String)) :
    getRawHeader "Accept-Language" (applyHeaderPolicy cfg hs) =
      (match cfg.acceptLanguage with
       | some al => some al
       | none => getRawHeader "Accept-Language" hs) := by
  unfold applyHeaderPolicy
  cases cfg.acceptLanguage with
  | none =>
      rw [getRawHeader_setRawHeader_other _ _ _ _ (by decide),
        getRawHeader_setRawHeader_other _ _ _ _ (by decide)]
  | some al => rw [getRawHeader_setRawHeader_same]

/-- On the transport path (no https-without-SSL error, no registered
handler) `createRequest` applies the header policy, forwards the mutated
request to the transport, tracks the fresh handle and returns the
transport's reply. -/
theorem createRequest_transport_path (sslAvailable : Bool)
    (schemeHandlers : List (String × SchemeHandler)) (cfg : Config)
    (op : Nat) (req : QNetworkRequest) (od : Option String) (st : NMState)
    (hssl : ¬(req.scheme = "https" ∧ ¬sslAvailable))
    (hlook : schemeHandlers.lookup req.scheme = none) :
    createRequest sslAvailable schemeHandlers cfg op req od st =
      (Reply.transport st.nextId,
       { st with
         nextId := st.nextId + 1
         transportLog := st.transportLog ++
           [{ op := op
              req := { req with headers := applyHeaderPolicy cfg req.headers }
              outgoingData := od }]
         requests := st.requests ++ [st.nextId] }) := by
  unfold createRequest
  rw [if_neg hssl, hlook]

/-! ### Claims about `createRequest` branch behaviour -/

/-- C9: when the scheme is `https` and SSL support is unavailable,
`createRequest` immediately returns the `ErrorNetworkReply` with the
human-readable message and `ProtocolUnknownError`, leaving the state
untouched — no transport call, no header mutation, no tracking. -/
theorem C9_https_without_ssl
    (schemeHandlers : List (String × SchemeHandler)) (cfg : Config)
    (op : Nat) (req : QNetworkRequest) (od : Option String) (st : NMState)
    (hscheme : req.scheme = "https") :
    createRequest false schemeHandlers cfg op req od st =
      (Reply.error req "SSL is not supported by the installed Qt library!"
        NetworkError.ProtocolUnknownError, st) := by
  unfold createRequest
  rw [if_pos ⟨hscheme, by simp⟩]

/-- C9 witness: a concrete https request without SSL support. -/
theorem C9_witness :
    createRequest false [("qute", quteHandler)] cfgLax 1 plainReq none
      NMState.initial =
      (Reply.error plainReq
        "SSL is not supported by the installed Qt library!"
        NetworkError.ProtocolUnknownError, NMState.initial) :=
  C9_https_without_ssl [("qute", quteHandler)] cfgLax 1 plainReq none
    NMState.initial rfl

/-- C8: when the request's scheme has a registered handler and the
https-without-SSL check does not fire, `createRequest` returns exactly the
handler's reply for the untouched request, and the state is unchanged — no
transport call, no header injection, no tracking. -/
theorem C8_registered_scheme (sslAvailable : Bool)
    (schemeHandlers : List (String × SchemeHandler)) (cfg : Config)
    (op : Nat) (req : QNetworkRequest) (od : Option String) (st : NMState)
    (handler : SchemeHandler)
    (hssl : ¬(req.scheme = "https" ∧ ¬sslAvailable))
    (hlook : schemeHandlers.lookup req.scheme = some handler) :
    createRequest sslAvailable schemeHandlers cfg op req od st =
      (handler op req od, st) := by
  unfold createRequest
  rw [if_neg hssl, hlook]

/-- C8 witness: the `qute` handler serves its synthetic reply and the
state, headers included, is exactly as before. -/
theorem C8_witness :
    createRequest true [("qute", quteHandler)] cfgDNT 1 quteReq none
      exTrackedState =
      (Reply.content quteReq "qute-page", exTrackedState) :=
  (C8_registered_scheme true [("qute", quteHandler)] cfgDNT 1 quteReq none
    exTrackedState quteHandler (by decide) rfl).trans rfl

/-- C4 counterexample: with the configured accept-language equal to the
empty string (non-null but empty, so "absent" in the claim's sense), the
transport path still sets the `Accept-Language` header — to the empty
value — although the claim says it must not be set. -/
theorem C4_counterexample :
    ((createRequest true [] cfgEmptyAL 1
        { scheme := "http", target := "example.com/", headers := [] } none
        NMState.initial).2.transportLog.map
      (fun tc => getRawHeader "Accept-Language" tc.req.headers)) =
      [some ""] ∧ (some "" : Option String) ≠ none := by
  constructor
  · decide
  · decide

/-- C4 (amended): on the transport path the outgoing request carries
`DNT` and `X-Do-Not-Track` both `'1'` when do-not-track is on and both
`'0'` when it is off (overwriting prior values), and `Accept-Language` is
set to the configured string iff that string is non-null (`None` leaves
the header exactly as it was on the incoming request); an empty configured
string is still set, as an empty header value. -/
theorem C4_header_policy (sslAvailable : Bool)
    (schemeHandlers : List (String × SchemeHandler)) (cfg : Config)
    (op : Nat) (req : QNetworkRequest) (od : Option String) (st : NMState)
    (hssl : ¬(req.scheme = "https" ∧ ¬sslAvailable))
    (hlook : schemeHandlers.lookup req.scheme = none) :
    ∃ tc : TransportCall,
      (createRequest sslAvailable schemeHandlers cfg op req od
          st).2.transportLog = st.transportLog ++ [tc] ∧
      getRawHeader "DNT" tc.req.headers =
        some (if cfg.doNotTrack then "1" else "0") ∧
      getRawHeader "X-Do-Not-Track" tc.req.headers =
        some (if cfg.doNotTrack then "1" else "0") ∧
      (∀ al : String, cfg.acceptLanguage = some al →
        getRawHeader "Accept-Language" tc.req.headers = some al) ∧
      (cfg.acceptLanguage = none →
        getRawHeader "Accept-Language" tc.req.headers =
          getRawHeader "Accept-Language" req.headers) := by
  refine ⟨{ op := op
            req := { req with headers := applyHeaderPolicy cfg req.headers }
            outgoingData := od }, ?_, ?_, ?_, ?_, ?_⟩
  · rw [createRequest_transport_path sslAvailable schemeHandlers cfg op req
      od st hssl hlook]
  · exact applyHeaderPolicy_dnt cfg req.headers
  · exact applyHeaderPolicy_xdnt cfg req.headers
  · intro al hal
    have := applyHeaderPolicy_acceptLanguage cfg req.headers
    rw [hal] at this
    exact this
  · intro hal
    have := applyHeaderPolicy_acceptLanguage cfg req.headers
    rw [hal] at this
    exact this

/-- C4 witness: do-not-track on and accept-language `en-US` on a plain
request; the single transport call carries `DNT: 1`, `X-Do-Not-Track: 1`
and `Accept-Language: en-US`. -/
theorem C4_witness :
    ((createRequest true [] cfgDNT 1
        { scheme := "http", target := "example.com/", headers := [] } none
        NMState.initial).2.transportLog.map
      (fun tc =>
        (getRawHeader "DNT" tc.req.headers,
         getRawHeader "X-Do-Not-Track" tc.req.headers,
         getRawHeader "Accept-Language" tc.req.headers))) =
      [(some "1", some "1", some "en-US")] := by
  obtain ⟨tc, hlog, h1, h2, h3, -⟩ :=
    C4_header_policy true [] cfgDNT 1
      { scheme := "http", target := "example.com/", headers := [] } none
      NMState.initial (by decide) rfl
  rw [hlog]
  simp only [NMState.initial, List.nil_append, List.map_cons, List.map_nil]
  rw [h1, h2, h3 "en-US" rfl]
  rfl

/-! ### Claims about the message log of `on_ssl_errors` -/

/-- Mapping errors to `MsgCall.error` entries yields one entry per error. -/
theorem countErrors_map (f : SslError → String) (errors : List SslError) :
    countErrors (errors.map (fun e => MsgCall.error (f e))) =
      errors.length := by
  induction errors with
  | nil => rfl
  | cons e es ih => simp [countErrors, ih]

/-- Mapping errors to `MsgCall.error` entries yields no `warn` entry. -/
theorem countWarns_map (f : SslError → String) (errors : List SslError) :
    countWarns (errors.map (fun e => MsgCall.error (f e))) = 0 := by
  induction errors with
  | nil => rfl
  | cons e es ih => simp [countWarns, ih]

/-- C1 counterexample: ssl-strict off, two TLS errors; the handler makes
zero `warn` calls on the message service (the source reports through
`message.error`, as its own FIXME notes), not the two the claim requires. -/
theorem C1_counterexample :
    countWarns (on_ssl_errors cfgLax
      [{ errorString := "err A" }, { errorString := "err B" }]).1 = 0 ∧
    (0 : Nat) ≠ 2 := by
  exact ⟨by decide, by decide⟩

/-- C1 (amended): with ssl-strict enabled `on_ssl_errors` does nothing
(no message, `ignoreSslErrors` never invoked); with it disabled a list of
n errors yields exactly n message-service calls, each a `message.error`
report (so n error calls and zero `warn` calls — the source's FIXME notes
`warn` as the alternative it does not use), and then `ignoreSslErrors` is
invoked. -/
theorem C1_ssl_errors_amended (cfg : Config) (errors : List SslError) :
    (cfg.sslStrict = true → on_ssl_errors cfg errors = ([], false)) ∧
    (cfg.sslStrict = false →
      (on_ssl_errors cfg errors).1.length = errors.length ∧
      countErrors (on_ssl_errors cfg errors).1 = errors.length ∧
      countWarns (on_ssl_errors cfg errors).1 = 0 ∧
      (∀ m ∈ (on_ssl_errors cfg errors).1,
        ∃ e ∈ errors, m = MsgCall.error ("SSL error: " ++ e.errorString)) ∧
      (on_ssl_errors cfg errors).2 = true) := by
  constructor
  · intro h
    simp [on_ssl_errors, h]
  · intro h
    have hval : on_ssl_errors cfg errors =
        (errors.map (fun e => MsgCall.error ("SSL error: " ++ e.errorString)),
         true) := by
      simp [on_ssl_errors, h]
    rw [hval]
    refine ⟨by simp,
      countErrors_map (fun e => "SSL error: " ++ e.errorString) errors,
      countWarns_map (fun e => "SSL error: " ++ e.errorString) errors,
      ?_, rfl⟩
    intro m hm
    rcases List.mem_map.mp hm with ⟨e, he, rfl⟩
    exact ⟨e, he, rfl⟩

/-- C1 witness: strict mode does nothing; lax mode with two errors makes
two message calls and proceeds. -/
theorem C1_witness :
    on_ssl_errors cfgStrict [{ errorString := "e" }] = ([], false) ∧
    (on_ssl_errors cfgLax
      [{ errorString := "err A" }, { errorString := "err B" }]).1.length =
      2 ∧
    (on_ssl_errors cfgLax
      [{ errorString := "err A" }, { errorString := "err B" }]).2 = true := by
  have h1 := (C1_ssl_errors_amended cfgStrict [{ errorString := "e" }]).1 rfl
  have h2 := (C1_ssl_errors_amended cfgLax
    [{ errorString := "err A" }, { errorString := "err B" }]).2 rfl
  exact ⟨h1, h2.1, h2.2.2.2.2⟩

/-! ### Claims about tracking and shutdown -/

/-- `list.remove` fails exactly when the element is absent. -/
theorem listRemove_eq_none_iff (x : Nat) :
    ∀ l : List Nat, listRemove x l = none ↔ x ∉ l := by
  intro l
  induction l with
  | nil => simp [listRemove]
  | cons y ys ih =>
      by_cases hy : y = x
      · simp [listRemove, hy]
      · simp [listRemove, hy, ih, Ne.symm hy]

/-- Removing an element occurring exactly once succeeds and eliminates it. -/
theorem listRemove_count_one (x : Nat) :
    ∀ l : List Nat, l.count x = 1 →
      ∃ l', listRemove x l = some l' ∧ x ∉ l' := by
  intro l
  induction l with
  | nil => intro h; simp at h
  | cons y ys ih =>
      intro h
      by_cases hy : y = x
      · subst hy
        have hcount : ys.count y = 0 := by
          rw [List.count_cons_self] at h
          omega
        exact ⟨ys, by simp [listRemove], List.count_eq_zero.mp hcount⟩
      · have hcount : ys.count x = 1 := by
          rwa [List.count_cons_of_ne (fun hc => hy hc.symm)] at h
        obtain ⟨l', hl', hx⟩ := ih hcount
        refine ⟨y :: l', by simp [listRemove, hy, hl'], ?_⟩
        simp [hx, Ne.symm hy]

/-- C2 counterexample: the tracker holds handle `0` once; the first
`untrack` succeeds, and the second raises (`list.remove` on an absent
element is a `ValueError`), so the second call is not a no-op. -/
theorem C2_counterexample :
    untrack 0 exTrackedState = some { exTrackedState with requests := [] } ∧
    untrack 0 { exTrackedState with requests := [] } = none := by
  exact ⟨by decide, by decide⟩

/-- C2 (amended): for a handle tracked exactly once, the first `untrack`
removes it; the second call on the same handle is not a silent no-op but
fails with `ValueError` (the callback does a plain `list.remove`). -/
theorem C2_untrack_not_idempotent (h : Nat) (st : NMState)
    (hcount : st.requests.count h = 1) :
    ∃ st', untrack h st = some st' ∧ h ∉ st'.requests ∧
      untrack h st' = none := by
  obtain ⟨l', hl', hx⟩ := listRemove_count_one h st.requests hcount
  refine ⟨{ st with requests := l' }, ?_, hx, ?_⟩
  · simp [untrack, hl']
  · simp [untrack, (listRemove_eq_none_iff h l').mpr hx]

/-- C2 witness: the concrete one-request tracker. -/
theorem C2_witness :
    ∃ st', untrack 0 exTrackedState = some st' ∧ 0 ∉ st'.requests ∧
      untrack 0 st' = none :=
  C2_untrack_not_idempotent 0 exTrackedState (by decide)

/-- C3 counterexample: with one tracked request, immediately after
`shutdown` the tracker still holds it (the request is only aborted and
scheduled for deletion — removal happens later, via the `destroyed`
callback), and a subsequent `createRequest` is no side-effect-free
"not accessible" short-circuit: it tracks a fresh handle, contacts the
transport and returns the transport's reply. -/
theorem C3_counterexample :
    (shutdown exTrackedState).requests ≠ [] ∧
    (createRequest true [] cfgLax 1
        { scheme := "http", target := "example.com/", headers := [] } none
        (shutdown exTrackedState)).2.requests = [0, 1] ∧
    (createRequest true [] cfgLax 1
        { scheme := "http", target := "example.com/", headers := [] } none
        (shutdown exTrackedState)).2.transportLog.length = 1 ∧
    (createRequest true [] cfgLax 1
        { scheme := "http", target := "example.com/", headers := [] } none
        (shutdown exTrackedState)).1 = Reply.transport 1 := by
  refine ⟨by decide, by decide, by decide, by decide⟩

/-- C3 (amended): `shutdown` flips the manager to NotAccessible and calls
`abort()` and `deleteLater()` on every tracked request, but leaves the
tracker list as it was (it empties only as destruction callbacks run);
afterwards `createRequest` still follows its normal path — on the
transport path it tracks a new handle and forwards the (header-mutated)
request to the now-inaccessible transport, whose own error reply, not a
gateway short-circuit, is what the caller gets. -/
theorem C3_shutdown_amended (st : NMState) :
    (shutdown st).accessible = false ∧
    (shutdown st).requests = st.requests ∧
    (shutdown st).abortLog = st.abortLog ++ st.requests ∧
    (shutdown st).deleteLaterLog = st.deleteLaterLog ++ st.requests ∧
    (∀ (sslAvailable : Bool)
       (schemeHandlers : List (String × SchemeHandler)) (cfg : Config)
       (op : Nat) (req : QNetworkRequest) (od : Option String),
       ¬(req.scheme = "https" ∧ ¬sslAvailable) →
       schemeHandlers.lookup req.scheme = none →
       (createRequest sslAvailable schemeHandlers cfg op req od
           (shutdown st)).2.requests = st.requests ++ [st.nextId] ∧
       (createRequest sslAvailable schemeHandlers cfg op req od
           (shutdown st)).2.transportLog.length =
         st.transportLog.length + 1) := by
  refine ⟨rfl, rfl, rfl, rfl, ?_⟩
  intro sslAvailable schemeHandlers cfg op req od hssl hlook
  rw [createRequest_transport_path sslAvailable schemeHandlers cfg op req od
    (shutdown st) hssl hlook]
  exact ⟨rfl, by simp [shutdown]⟩

/-- C3 witness: the concrete one-request tracker, shut down, then hit with
a plain http request. -/
theorem C3_witness :
    (shutdown exTrackedState).accessible = false ∧
    (createRequest true [] cfgLax 1
        { scheme := "http", target := "example.com/", headers := [] } none
        (shutdown exTrackedState)).2.requests = [0, 1] := by
  have h := C3_shutdown_amended exTrackedState
  refine ⟨h.1, ?_⟩
  exact ((h.2.2.2.2 true [] cfgLax 1
    { scheme := "http", target := "example.com/", headers := [] } none
    (by decide) rfl).1).trans (by decide)

end QuteNet
